import Mathlib

/-!
Shallow embedding of the PropChain advanced escrow contract
(`contracts/escrow/src/lib.rs`, ink! contract `propchain_escrow`).

Modelling conventions:
* `AccountId` and `Hash` are modelled as `Nat` (opaque identifiers compared
  only for equality in the source).
* `u64`/`u128`/`u8` quantities are modelled as `Nat`.  The ink! build uses
  checked arithmetic (overflow traps rather than wraps), so the `Nat` model
  covers every non-trapping execution, and no claim below concerns overflow.
* `ink::storage::Mapping` is modelled as a total function: `K → Option V`
  for maps read with `.get`, and directly defaulted functions for the two
  maps the source always reads with `unwrap_or(false)` / `unwrap_or(0)`
  (`signatures` and `signature_counts`).
* The host environment (`self.env()`) is an explicit `Env` record: caller,
  transferred value, block timestamp, and a predicate saying which value
  transfers the host accepts.  Successful calls to `env().transfer` are
  recorded in a ghost `transfers` log so that "custody moved to X" is
  observable in the model.
* Each `#[ink(message)]` becomes a function `State → Env → args →
  Except Error α × State`; an early `return Err(e)` leaves the state
  untouched, exactly as in the source.
-/

namespace PropchainEscrow

abbrev AccountId := Nat
abbrev EHash := Nat
abbrev Timestamp := Nat
abbrev Balance := Nat

deriving instance DecidableEq for Except

/-- Error type of the escrow contract (source lines 16–30). -/
inductive Error where
  | EscrowNotFound
  | Unauthorized
  | InvalidStatus
  | InsufficientFunds
  | ConditionsNotMet
  | SignatureThresholdNotMet
  | AlreadySigned
  | DocumentNotFound
  | DisputeActive
  | TimeLockActive
  | InvalidConfiguration
  | EscrowAlreadyFunded
  | ParticipantNotFound
deriving DecidableEq, Repr

/-- Escrow status enumeration (source lines 36–44). -/
inductive EscrowStatus where
  | Created
  | Funded
  | Active
  | Released
  | Refunded
  | Disputed
  | Cancelled
deriving DecidableEq, Repr

/-- Approval type for multi-signature operations (source lines 50–54). -/
inductive ApprovalType where
  | Release
  | Refund
  | EmergencyOverride
deriving DecidableEq, Repr

/-- Main escrow data structure (source lines 60–71). -/
structure EscrowData where
  id : Nat
  property_id : Nat
  buyer : AccountId
  seller : AccountId
  amount : Balance
  deposited_amount : Balance
  status : EscrowStatus
  created_at : Timestamp
  release_time_lock : Option Timestamp
  participants : List AccountId
deriving DecidableEq, Repr

/-- Multi-signature configuration (source lines 77–80). -/
structure MultiSigConfig where
  required_signatures : Nat
  signers : List AccountId
deriving DecidableEq, Repr

/-- Document hash with metadata (source lines 86–92). -/
structure DocumentHash where
  hash : EHash
  document_type : String
  uploaded_by : AccountId
  uploaded_at : Timestamp
  verified : Bool
deriving DecidableEq, Repr

/-- Condition for escrow release (source lines 98–104). -/
structure Condition where
  id : Nat
  description : String
  met : Bool
  verified_by : Option AccountId
  verified_at : Option Timestamp
deriving DecidableEq, Repr

/-- Dispute information (source lines 110–117). -/
structure DisputeInfo where
  escrow_id : Nat
  raised_by : AccountId
  reason : String
  raised_at : Timestamp
  resolved : Bool
  resolution : Option String
deriving DecidableEq, Repr

/-- Audit trail entry (source lines 123–128). -/
structure AuditEntry where
  timestamp : Timestamp
  actor : AccountId
  action : String
  details : String
deriving DecidableEq, Repr

/-- Contract storage (source lines 132–157), plus a ghost log of the
value transfers performed by the host on the contract's behalf. -/
structure State where
  escrows : Nat → Option EscrowData
  escrow_count : Nat
  multi_sig_configs : Nat → Option MultiSigConfig
  signatures : Nat × ApprovalType × AccountId → Bool
  signature_counts : Nat × ApprovalType → Nat
  documents : Nat → Option (List DocumentHash)
  conditions : Nat → Option (List Condition)
  condition_counters : Nat → Option Nat
  disputes : Nat → Option DisputeInfo
  audit_logs : Nat → Option (List AuditEntry)
  admin : AccountId
  min_high_value_threshold : Balance
  transfers : List (AccountId × Balance)

/-- Host environment of a single message call. `transfer_ok recipient amount`
says whether `self.env().transfer(recipient, amount)` succeeds. -/
structure Env where
  caller : AccountId
  transferred_value : Balance
  block_timestamp : Timestamp
  transfer_ok : AccountId → Balance → Bool

/-- `Mapping::insert` on an optional-valued map. -/
def insertO {K V : Type} [DecidableEq K] (m : K → Option V) (k : K) (v : V) :
    K → Option V :=
  fun q => if q = k then some v else m q

/-- `Mapping::insert` on a defaulted map (read with `unwrap_or`). -/
def insertD {K V : Type} [DecidableEq K] (m : K → V) (k : K) (v : V) : K → V :=
  fun q => if q = k then v else m q

/-- Constructor `new` (source lines 260–275): empty storage, the deployer
becomes the admin. -/
def State.new (caller : AccountId) (min_high_value_threshold : Balance) : State where
  escrows := fun _ => none
  escrow_count := 0
  multi_sig_configs := fun _ => none
  signatures := fun _ => false
  signature_counts := fun _ => 0
  documents := fun _ => none
  conditions := fun _ => none
  condition_counters := fun _ => none
  disputes := fun _ => none
  audit_logs := fun _ => none
  admin := caller
  min_high_value_threshold := min_high_value_threshold
  transfers := []

/-- Helper `add_audit_entry` (source lines 951–962). -/
def add_audit_entry (s : State) (env : Env) (escrow_id : Nat) (actor : AccountId)
    (action details : String) : State :=
  let entry : AuditEntry :=
    { timestamp := env.block_timestamp, actor := actor, action := action,
      details := details }
  let logs := (s.audit_logs escrow_id).getD []
  { s with audit_logs := insertO s.audit_logs escrow_id (logs ++ [entry]) }

/-- `create_escrow_advanced` (source lines 279–349). -/
def create_escrow_advanced (s : State) (env : Env) (property_id : Nat)
    (amount : Balance) (buyer seller : AccountId) (participants : List AccountId)
    (required_signatures : Nat) (release_time_lock : Option Timestamp) :
    Except Error Nat × State :=
  if required_signatures = 0 ∨ participants = [] then
    (.error .InvalidConfiguration, s)
  else if participants.length < required_signatures then
    (.error .InvalidConfiguration, s)
  else
    let escrow_id := s.escrow_count + 1
    let escrow_data : EscrowData :=
      { id := escrow_id, property_id := property_id, buyer := buyer,
        seller := seller, amount := amount, deposited_amount := 0,
        status := .Created, created_at := env.block_timestamp,
        release_time_lock := release_time_lock, participants := participants }
    let s1 :=
      { s with
        escrow_count := escrow_id,
        escrows := insertO s.escrows escrow_id escrow_data,
        multi_sig_configs := insertO s.multi_sig_configs escrow_id
          { required_signatures := required_signatures, signers := participants },
        documents := insertO s.documents escrow_id [],
        conditions := insertO s.conditions escrow_id [],
        condition_counters := insertO s.condition_counters escrow_id 0,
        audit_logs := insertO s.audit_logs escrow_id [] }
    let s2 := add_audit_entry s1 env escrow_id env.caller "EscrowCreated"
      ("Property: " ++ toString property_id ++ ", Amount: " ++ toString amount)
    (.ok escrow_id, s2)

/-- `deposit_funds` (source lines 353–391). -/
def deposit_funds (s : State) (env : Env) (escrow_id : Nat) :
    Except Error Unit × State :=
  match s.escrows escrow_id with
  | none => (.error .EscrowNotFound, s)
  | some escrow =>
    if escrow.status ≠ .Created ∧ escrow.status ≠ .Funded then
      (.error .InvalidStatus, s)
    else
      let deposited := escrow.deposited_amount + env.transferred_value
      let newStatus : EscrowStatus :=
        if escrow.amount ≤ deposited then .Active else .Funded
      let escrow1 := { escrow with deposited_amount := deposited, status := newStatus }
      let s1 := { s with escrows := insertO s.escrows escrow_id escrow1 }
      let s2 := add_audit_entry s1 env escrow_id env.caller "FundsDeposited"
        ("Amount: " ++ toString env.transferred_value)
      (.ok (), s2)

/-- Query `check_all_conditions_met` (source lines 904–914). -/
def check_all_conditions_met (s : State) (escrow_id : Nat) : Except Error Bool :=
  let conditions := (s.conditions escrow_id).getD []
  if conditions = [] then .ok true
  else .ok (conditions.all (·.met))

/-- Helper `check_signature_threshold` (source lines 944–948). -/
def check_signature_threshold (s : State) (escrow_id : Nat)
    (approval_type : ApprovalType) : Except Error Bool :=
  match s.multi_sig_configs escrow_id with
  | none => .error .EscrowNotFound
  | some config =>
    .ok (config.required_signatures ≤ s.signature_counts (escrow_id, approval_type))

/-- The dispute guard of `release_funds` (source lines 405–409): an
unresolved dispute record exists for this escrow. -/
def dispute_active (s : State) (escrow_id : Nat) : Bool :=
  match s.disputes escrow_id with
  | some dispute => ! dispute.resolved
  | none => false

/-- The time-lock guard of `release_funds` (source lines 412–416): a lock is
set and the current block timestamp is before it. -/
def time_lock_active (env : Env) (escrow : EscrowData) : Bool :=
  match escrow.release_time_lock with
  | some time_lock => decide (env.block_timestamp < time_lock)
  | none => false

/-- `release_funds` (source lines 395–453). -/
def release_funds (s : State) (env : Env) (escrow_id : Nat) :
    Except Error Unit × State :=
  match s.escrows escrow_id with
  | none => (.error .EscrowNotFound, s)
  | some escrow =>
    if escrow.status ≠ .Active then (.error .InvalidStatus, s)
    else if dispute_active s escrow_id then (.error .DisputeActive, s)
    else if time_lock_active env escrow then (.error .TimeLockActive, s)
    else
      match check_all_conditions_met s escrow_id with
      | .error e => (.error e, s)
      | .ok allMet =>
        if !allMet then (.error .ConditionsNotMet, s)
        else
          match check_signature_threshold s escrow_id .Release with
          | .error e => (.error e, s)
          | .ok thresholdMet =>
            if !thresholdMet then (.error .SignatureThresholdNotMet, s)
            else if !env.transfer_ok escrow.seller escrow.deposited_amount then
              (.error .InsufficientFunds, s)
            else
              let s1 :=
                { s with
                  transfers := s.transfers ++ [(escrow.seller, escrow.deposited_amount)],
                  escrows := insertO s.escrows escrow_id
                    { escrow with status := .Released } }
              let s2 := add_audit_entry s1 env escrow_id env.caller "FundsReleased"
                ("Amount: " ++ toString escrow.deposited_amount ++ " to seller")
              (.ok (), s2)

/-- `refund_funds` (source lines 457–496). -/
def refund_funds (s : State) (env : Env) (escrow_id : Nat) :
    Except Error Unit × State :=
  match s.escrows escrow_id with
  | none => (.error .EscrowNotFound, s)
  | some escrow =>
    if escrow.status ≠ .Active ∧ escrow.status ≠ .Funded then
      (.error .InvalidStatus, s)
    else
      match check_signature_threshold s escrow_id .Refund with
      | .error e => (.error e, s)
      | .ok thresholdMet =>
        if !thresholdMet then (.error .SignatureThresholdNotMet, s)
        else if !env.transfer_ok escrow.buyer escrow.deposited_amount then
          (.error .InsufficientFunds, s)
        else
          let s1 :=
            { s with
              transfers := s.transfers ++ [(escrow.buyer, escrow.deposited_amount)],
              escrows := insertO s.escrows escrow_id
                { escrow with status := .Refunded } }
          let s2 := add_audit_entry s1 env escrow_id env.caller "FundsRefunded"
            ("Amount: " ++ toString escrow.deposited_amount ++ " to buyer")
          (.ok (), s2)

/-- `upload_document` (source lines 500–542). -/
def upload_document (s : State) (env : Env) (escrow_id : Nat)
    (document_hash : EHash) (document_type : String) : Except Error Unit × State :=
  match s.escrows escrow_id with
  | none => (.error .EscrowNotFound, s)
  | some escrow =>
    if env.caller ∉ escrow.participants ∧ env.caller ≠ escrow.buyer ∧
        env.caller ≠ escrow.seller then
      (.error .Unauthorized, s)
    else
      let document : DocumentHash :=
        { hash := document_hash, document_type := document_type,
          uploaded_by := env.caller, uploaded_at := env.block_timestamp,
          verified := false }
      let docs := (s.documents escrow_id).getD []
      let s1 := { s with documents := insertO s.documents escrow_id (docs ++ [document]) }
      let s2 := add_audit_entry s1 env escrow_id env.caller "DocumentUploaded"
        ("Type: " ++ document_type)
      (.ok (), s2)

/-- The `for doc in docs.iter_mut()` loop of `verify_document` (source lines
556–564): mark the first document with the given hash verified, report
whether one was found. -/
def verifyFirstDoc (document_hash : EHash) :
    List DocumentHash → List DocumentHash × Bool
  | [] => ([], false)
  | doc :: rest =>
    if doc.hash = document_hash then ({ doc with verified := true } :: rest, true)
    else
      let (rest1, found) := verifyFirstDoc document_hash rest
      (doc :: rest1, found)

/-- `verify_document` (source lines 546–587). -/
def verify_document (s : State) (env : Env) (escrow_id : Nat)
    (document_hash : EHash) : Except Error Unit × State :=
  match s.escrows escrow_id with
  | none => (.error .EscrowNotFound, s)
  | some escrow =>
    if env.caller ∉ escrow.participants then (.error .Unauthorized, s)
    else
      match s.documents escrow_id with
      | none => (.error .DocumentNotFound, s)
      | some docs =>
        let (docs1, found) := verifyFirstDoc document_hash docs
        if !found then (.error .DocumentNotFound, s)
        else
          let s1 := { s with documents := insertO s.documents escrow_id docs1 }
          let s2 := add_audit_entry s1 env escrow_id env.caller "DocumentVerified"
            "Document verified"
          (.ok (), s2)

/-- `add_condition` (source lines 591–631). -/
def add_condition (s : State) (env : Env) (escrow_id : Nat)
    (description : String) : Except Error Nat × State :=
  match s.escrows escrow_id with
  | none => (.error .EscrowNotFound, s)
  | some escrow =>
    if env.caller ≠ escrow.buyer ∧ env.caller ≠ escrow.seller then
      (.error .Unauthorized, s)
    else
      let counter := (s.condition_counters escrow_id).getD 0 + 1
      let condition : Condition :=
        { id := counter, description := description, met := false,
          verified_by := none, verified_at := none }
      let conditions := (s.conditions escrow_id).getD []
      let s1 :=
        { s with
          conditions := insertO s.conditions escrow_id (conditions ++ [condition]),
          condition_counters := insertO s.condition_counters escrow_id counter }
      let s2 := add_audit_entry s1 env escrow_id env.caller "ConditionAdded"
        ("Condition: " ++ description)
      (.ok counter, s2)

/-- The `for condition in conditions.iter_mut()` loop of `mark_condition_met`
(source lines 647–655): set `met`, `verified_by`, `verified_at` on the first
condition with the given id, report whether one was found. -/
def markFirstCondition (caller : AccountId) (now : Timestamp) (condition_id : Nat) :
    List Condition → List Condition × Bool
  | [] => ([], false)
  | c :: rest =>
    if c.id = condition_id then
      let c1 :=
        { c with met := true, verified_by := some caller, verified_at := some now }
      (c1 :: rest, true)
    else
      let (rest1, found) := markFirstCondition caller now condition_id rest
      (c :: rest1, found)

/-- `mark_condition_met` (source lines 635–678). -/
def mark_condition_met (s : State) (env : Env) (escrow_id : Nat)
    (condition_id : Nat) : Except Error Unit × State :=
  match s.escrows escrow_id with
  | none => (.error .EscrowNotFound, s)
  | some escrow =>
    if env.caller ∉ escrow.participants then (.error .Unauthorized, s)
    else
      let conditions := (s.conditions escrow_id).getD []
      let (conditions1, found) :=
        markFirstCondition env.caller env.block_timestamp condition_id conditions
      if !found then (.error .EscrowNotFound, s)
      else
        let s1 := { s with conditions := insertO s.conditions escrow_id conditions1 }
        let s2 := add_audit_entry s1 env escrow_id env.caller "ConditionMet"
          ("Condition ID: " ++ toString condition_id)
        (.ok (), s2)

/-- Printable name of an approval type (stands in for `format!` with `Debug`
in the source's audit details string). -/
def ApprovalType.name : ApprovalType → String
  | .Release => "Release"
  | .Refund => "Refund"
  | .EmergencyOverride => "EmergencyOverride"

/-- `sign_approval` (source lines 682–721). -/
def sign_approval (s : State) (env : Env) (escrow_id : Nat)
    (approval_type : ApprovalType) : Except Error Unit × State :=
  match s.escrows escrow_id with
  | none => (.error .EscrowNotFound, s)
  | some _ =>
    match s.multi_sig_configs escrow_id with
    | none => (.error .EscrowNotFound, s)
    | some config =>
      if env.caller ∉ config.signers then (.error .Unauthorized, s)
      else
        let sig_key : Nat × ApprovalType × AccountId :=
          (escrow_id, approval_type, env.caller)
        if s.signatures sig_key then (.error .AlreadySigned, s)
        else
          let count_key : Nat × ApprovalType := (escrow_id, approval_type)
          let s1 :=
            { s with
              signatures := insertD s.signatures sig_key true,
              signature_counts := insertD s.signature_counts count_key
                (s.signature_counts count_key + 1) }
          let s2 := add_audit_entry s1 env escrow_id env.caller "SignatureAdded"
            ("Approval type: " ++ approval_type.name)
          (.ok (), s2)

/-- `raise_dispute` (source lines 725–772). -/
def raise_dispute (s : State) (env : Env) (escrow_id : Nat) (reason : String) :
    Except Error Unit × State :=
  match s.escrows escrow_id with
  | none => (.error .EscrowNotFound, s)
  | some escrow =>
    if env.caller ≠ escrow.buyer ∧ env.caller ≠ escrow.seller then
      (.error .Unauthorized, s)
    else if dispute_active s escrow_id then (.error .DisputeActive, s)
    else
      let dispute : DisputeInfo :=
        { escrow_id := escrow_id, raised_by := env.caller, reason := reason,
          raised_at := env.block_timestamp, resolved := false, resolution := none }
      let s1 :=
        { s with
          disputes := insertO s.disputes escrow_id dispute,
          escrows := insertO s.escrows escrow_id
            { escrow with status := .Disputed } }
      let s2 := add_audit_entry s1 env escrow_id env.caller "DisputeRaised"
        ("Reason: " ++ reason)
      (.ok (), s2)

/-- `resolve_dispute` (source lines 776–808). -/
def resolve_dispute (s : State) (env : Env) (escrow_id : Nat)
    (resolution : String) : Except Error Unit × State :=
  if env.caller ≠ s.admin then (.error .Unauthorized, s)
  else
    match s.disputes escrow_id with
    | none => (.error .EscrowNotFound, s)
    | some dispute =>
      let dispute1 := { dispute with resolved := true, resolution := some resolution }
      let s1 := { s with disputes := insertO s.disputes escrow_id dispute1 }
      match s1.escrows escrow_id with
      | none => (.error .EscrowNotFound, s1)
      | some escrow =>
        let escrow1 := { escrow with status := EscrowStatus.Active }
        let s2 := { s1 with escrows := insertO s1.escrows escrow_id escrow1 }
        let s3 := add_audit_entry s2 env escrow_id env.caller "DisputeResolved"
          ("Resolution: " ++ resolution)
        (.ok (), s3)

/-- `emergency_override` (source lines 812–856). -/
def emergency_override (s : State) (env : Env) (escrow_id : Nat)
    (release_to_seller : Bool) : Except Error Unit × State :=
  if env.caller ≠ s.admin then (.error .Unauthorized, s)
  else
    match s.escrows escrow_id with
    | none => (.error .EscrowNotFound, s)
    | some escrow =>
      let recipient := if release_to_seller then escrow.seller else escrow.buyer
      if !env.transfer_ok recipient escrow.deposited_amount then
        (.error .InsufficientFunds, s)
      else
        let newStatus : EscrowStatus :=
          if release_to_seller then .Released else .Refunded
        let s1 :=
          { s with
            transfers := s.transfers ++ [(recipient, escrow.deposited_amount)],
            escrows := insertO s.escrows escrow_id
              { escrow with status := newStatus } }
        let s2 := add_audit_entry s1 env escrow_id env.caller "EmergencyOverride"
          "Funds sent to recipient"
        (.ok (), s2)

/-- `set_admin` (source lines 918–927). -/
def set_admin (s : State) (env : Env) (new_admin : AccountId) :
    Except Error Unit × State :=
  if env.caller ≠ s.admin then (.error .Unauthorized, s)
  else (.ok (), { s with admin := new_admin })

/-- Query `get_signature_count` (source lines 898–900). -/
def get_signature_count (s : State) (escrow_id : Nat)
    (approval_type : ApprovalType) : Nat :=
  s.signature_counts (escrow_id, approval_type)

/-- Query `get_escrow` (source lines 862–864). -/
def get_escrow (s : State) (escrow_id : Nat) : Option EscrowData :=
  s.escrows escrow_id

/-! ### Operation steps and reachable contract states -/

/-- One public message call, with its arguments. -/
inductive Op where
  | createEscrowAdvanced (property_id : Nat) (amount : Balance)
      (buyer seller : AccountId) (participants : List AccountId)
      (required_signatures : Nat) (release_time_lock : Option Timestamp)
  | depositFunds (escrow_id : Nat)
  | releaseFunds (escrow_id : Nat)
  | refundFunds (escrow_id : Nat)
  | uploadDocument (escrow_id : Nat) (document_hash : EHash) (document_type : String)
  | verifyDocument (escrow_id : Nat) (document_hash : EHash)
  | addCondition (escrow_id : Nat) (description : String)
  | markConditionMet (escrow_id condition_id : Nat)
  | signApproval (escrow_id : Nat) (approval_type : ApprovalType)
  | raiseDispute (escrow_id : Nat) (reason : String)
  | resolveDispute (escrow_id : Nat) (resolution : String)
  | emergencyOverride (escrow_id : Nat) (release_to_seller : Bool)
  | setAdmin (new_admin : AccountId)

/-- State effect of one message call in environment `env`. -/
def Op.apply (op : Op) (env : Env) (s : State) : State :=
  match op with
  | .createEscrowAdvanced p a b sl ps rs rtl =>
      (create_escrow_advanced s env p a b sl ps rs rtl).2
  | .depositFunds i => (deposit_funds s env i).2
  | .releaseFunds i => (release_funds s env i).2
  | .refundFunds i => (refund_funds s env i).2
  | .uploadDocument i h t => (upload_document s env i h t).2
  | .verifyDocument i h => (verify_document s env i h).2
  | .addCondition i d => (add_condition s env i d).2
  | .markConditionMet i c => (mark_condition_met s env i c).2
  | .signApproval i a => (sign_approval s env i a).2
  | .raiseDispute i r => (raise_dispute s env i r).2
  | .resolveDispute i r => (resolve_dispute s env i r).2
  | .emergencyOverride i b => (emergency_override s env i b).2
  | .setAdmin a => (set_admin s env a).2

/-- States reachable from a freshly deployed contract by public message calls. -/
inductive Reachable : State → Prop where
  | base (caller : AccountId) (threshold : Balance) :
      Reachable (State.new caller threshold)
  | step {s : State} (op : Op) (env : Env) :
      Reachable s → Reachable (op.apply env s)

/-- The distinct signers of `signers` holding a recorded `true` signature
entry for `(escrow_id, approval_type)`. -/
def trueSigners (s : State) (escrow_id : Nat) (approval_type : ApprovalType)
    (signers : List AccountId) : List AccountId :=
  signers.dedup.filter (fun a => s.signatures (escrow_id, approval_type, a))

/-- Signature-accounting invariant of the contract storage: for every
configured escrow the stored count equals the number of distinct signers
with a recorded `true` signature entry, every `true` entry belongs to a
configured signer, and unconfigured escrow ids (in particular all ids above
`escrow_count`) carry no signatures and a zero count. -/
def SigInvariant (s : State) : Prop :=
  ∀ escrow_id approval_type,
    (∀ config, s.multi_sig_configs escrow_id = some config →
        s.signature_counts (escrow_id, approval_type) =
          (trueSigners s escrow_id approval_type config.signers).length ∧
        ∀ a, s.signatures (escrow_id, approval_type, a) = true →
          a ∈ config.signers) ∧
    (s.multi_sig_configs escrow_id = none →
        s.signature_counts (escrow_id, approval_type) = 0 ∧
        ∀ a, s.signatures (escrow_id, approval_type, a) = false) ∧
    (s.escrow_count < escrow_id → s.multi_sig_configs escrow_id = none)

/-- The storage fields `SigInvariant` depends on. -/
def sigPart (s : State) :
    Nat × (Nat → Option MultiSigConfig) ×
      ((Nat × ApprovalType × AccountId) → Bool) × ((Nat × ApprovalType) → Nat) :=
  (s.escrow_count, s.multi_sig_configs, s.signatures, s.signature_counts)

/-! ### Concrete fixtures: a small escrow history used by witnesses and
counterexamples.  Deployer/admin is account 0, buyer is 1, seller is 2,
participants are [1, 2, 3], agreed amount 100, threshold 2 signatures. -/

/-- An environment whose host accepts every value transfer. -/
def mkEnv (caller : AccountId) (value : Balance) (now : Timestamp) : Env :=
  { caller := caller, transferred_value := value, block_timestamp := now,
    transfer_ok := fun _ _ => true }

/-- The stored record of fixture escrow 1 immediately after creation. -/
def escCreatedData : EscrowData :=
  { id := 1, property_id := 7, buyer := 1, seller := 2, amount := 100,
    deposited_amount := 0, status := .Created, created_at := 5,
    release_time_lock := none, participants := [1, 2, 3] }

/-- Fixture escrow 1 fully funded. -/
def escActiveData : EscrowData :=
  { escCreatedData with deposited_amount := 100, status := .Active }

/-- Fixture escrow 1 after the admin releases it by emergency override. -/
def escReleasedData : EscrowData :=
  { escActiveData with status := .Released }

def s0 : State := State.new 0 1000

def sCreated : State :=
  (create_escrow_advanced s0 (mkEnv 1 0 5) 7 100 1 2 [1, 2, 3] 2 none).2

/-- Escrow 1 fully funded: status `Active`. -/
def sActive : State := (deposit_funds sCreated (mkEnv 1 100 6) 1).2

/-- Escrow 1 partially funded: status `Funded`. -/
def sFunded : State := (deposit_funds sCreated (mkEnv 1 50 6) 1).2

/-- Two `Refund` signatures on the active escrow: refund threshold met. -/
def sRefundSigned : State :=
  (sign_approval (sign_approval sActive (mkEnv 1 0 7) 1 .Refund).2
    (mkEnv 2 0 8) 1 .Refund).2

/-- A dispute raised by the buyer on the refund-signed active escrow. -/
def sDisputed : State := (raise_dispute sRefundSigned (mkEnv 1 0 9) 1 "issue").2

/-- Two `Release` signatures on the active escrow: release threshold met. -/
def sReleaseSigned : State :=
  (sign_approval (sign_approval sActive (mkEnv 1 0 7) 1 .Release).2
    (mkEnv 2 0 8) 1 .Release).2

/-- Escrow 1 driven to the terminal status `Released` by the admin. -/
def sReleased : State := (emergency_override sActive (mkEnv 0 0 10) 1 true).2

/-- Query `get_multi_sig_config` (source lines 892–894). -/
def get_multi_sig_config (s : State) (escrow_id : Nat) : Option MultiSigConfig :=
  s.multi_sig_configs escrow_id

/-- Query `get_conditions` (source lines 874–876). -/
def get_conditions (s : State) (escrow_id : Nat) : List Condition :=
  (s.conditions escrow_id).getD []

/-- Query `get_dispute` (source lines 880–882). -/
def get_dispute (s : State) (escrow_id : Nat) : Option DisputeInfo :=
  s.disputes escrow_id

/-- The condition record written by the `mark_condition_met` loop. -/
def markedCondition (c : Condition) (caller : AccountId) (now : Timestamp) :
    Condition :=
  { c with met := true, verified_by := some caller, verified_at := some now }

/-- An environment whose host rejects every value transfer. -/
def mkEnvNoTransfer (caller : AccountId) (value : Balance) (now : Timestamp) :
    Env :=
  { caller := caller, transferred_value := value, block_timestamp := now,
    transfer_ok := fun _ _ => false }

/-- Fixture: dispute raised on the partially funded (`Funded`) escrow. -/
def sFundedDisputed : State :=
  (raise_dispute sFunded (mkEnv 1 0 9) 1 "issue").2

/-- Fixture: that dispute resolved by the admin. -/
def sFundedResolved : State :=
  (resolve_dispute sFundedDisputed (mkEnv 0 0 10) 1 "fixed").2

/-- Fixture: a condition added to the active escrow by the buyer. -/
def sCond : State := (add_condition sActive (mkEnv 1 0 7) 1 "inspection").2

/-- Fixture: that condition marked met by participant 1 at time 10. -/
def sMarked : State := (mark_condition_met sCond (mkEnv 1 0 10) 1 1).2

/-! ### Helper lemmas and proofs -/

theorem sigInvariant_of_sigPart_eq {s t : State} (h : sigPart t = sigPart s)
    (hs : SigInvariant s) : SigInvariant t := by
  have h1 : t.escrow_count = s.escrow_count := congrArg Prod.fst h
  have h2 : t.multi_sig_configs = s.multi_sig_configs :=
    congrArg (fun p => p.2.1) h
  have h3 : t.signatures = s.signatures := congrArg (fun p => p.2.2.1) h
  have h4 : t.signature_counts = s.signature_counts := congrArg (fun p => p.2.2.2) h
  unfold SigInvariant trueSigners at *
  rw [h1, h2, h3, h4]
  exact hs

theorem sigPart_add_audit_entry (s : State) (env : Env) (i : Nat) (a : AccountId)
    (ac de : String) : sigPart (add_audit_entry s env i a ac de) = sigPart s := rfl

theorem sigPart_deposit_funds (s : State) (env : Env) (i : Nat) :
    sigPart (deposit_funds s env i).2 = sigPart s := by
  unfold deposit_funds
  repeat' (first | rfl | split | dsimp only)

theorem sigPart_release_funds (s : State) (env : Env) (i : Nat) :
    sigPart (release_funds s env i).2 = sigPart s := by
  unfold release_funds
  repeat' (first | rfl | split | dsimp only)

theorem sigPart_refund_funds (s : State) (env : Env) (i : Nat) :
    sigPart (refund_funds s env i).2 = sigPart s := by
  unfold refund_funds
  repeat' (first | rfl | split | dsimp only)

theorem sigPart_upload_document (s : State) (env : Env) (i : Nat) (h : EHash)
    (t : String) : sigPart (upload_document s env i h t).2 = sigPart s := by
  unfold upload_document
  repeat' (first | rfl | split | dsimp only)

theorem sigPart_verify_document (s : State) (env : Env) (i : Nat) (h : EHash) :
    sigPart (verify_document s env i h).2 = sigPart s := by
  unfold verify_document
  repeat' (first | rfl | split | dsimp only)

theorem sigPart_add_condition (s : State) (env : Env) (i : Nat) (d : String) :
    sigPart (add_condition s env i d).2 = sigPart s := by
  unfold add_condition
  repeat' (first | rfl | split | dsimp only)

theorem sigPart_mark_condition_met (s : State) (env : Env) (i c : Nat) :
    sigPart (mark_condition_met s env i c).2 = sigPart s := by
  unfold mark_condition_met
  repeat' (first | rfl | split | dsimp only)

theorem sigPart_raise_dispute (s : State) (env : Env) (i : Nat) (r : String) :
    sigPart (raise_dispute s env i r).2 = sigPart s := by
  unfold raise_dispute
  repeat' (first | rfl | split | dsimp only)

theorem sigPart_resolve_dispute (s : State) (env : Env) (i : Nat) (r : String) :
    sigPart (resolve_dispute s env i r).2 = sigPart s := by
  unfold resolve_dispute
  repeat' (first | rfl | split | dsimp only)

theorem sigPart_emergency_override (s : State) (env : Env) (i : Nat) (b : Bool) :
    sigPart (emergency_override s env i b).2 = sigPart s := by
  unfold emergency_override
  repeat' (first | rfl | split | dsimp only)

theorem sigPart_set_admin (s : State) (env : Env) (a : AccountId) :
    sigPart (set_admin s env a).2 = sigPart s := by
  unfold set_admin
  repeat' (first | rfl | split | dsimp only)

theorem insertD_same {K V : Type} [DecidableEq K] (m : K → V) (k : K) (v : V) :
    insertD m k v k = v := by
  simp [insertD]

theorem insertD_other {K V : Type} [DecidableEq K] (m : K → V) {k q : K} (v : V)
    (h : q ≠ k) : insertD m k v q = m q := by
  simp [insertD, h]

/-- Setting one previously-`false` element of a `Nodup` list to `true` grows
the filtered length by exactly one. -/
theorem length_filter_set_true {c : AccountId} {f : AccountId → Bool} :
    ∀ {l : List AccountId}, l.Nodup → c ∈ l → f c = false →
      (l.filter (fun a => if a = c then true else f a)).length
        = (l.filter f).length + 1 := by
  intro l
  induction l with
  | nil => intro _ hc; cases hc
  | cons x xs ih =>
    intro hnd hc hf
    rw [List.nodup_cons] at hnd
    rcases List.mem_cons.mp hc with hx | hxs
    · subst hx
      have hcong : xs.filter (fun a => if a = c then true else f a) = xs.filter f := by
        apply List.filter_congr
        intro a ha
        have hne : a ≠ c := fun hac => hnd.1 (hac ▸ ha)
        simp [hne]
      rw [List.filter_cons_of_pos (by simp), List.filter_cons_of_neg (by simp [hf]),
        hcong]
      simp
    · by_cases hxf : f x = true
      · rw [List.filter_cons_of_pos hxf,
          List.filter_cons_of_pos
            (by by_cases hxc : x = c <;> simp [hxc, hxf])]
        rw [List.length_cons, List.length_cons, ih hnd.2 hxs hf]
      · have hxc : x ≠ c := fun hh => hnd.1 (hh ▸ hxs)
        have hxf2 : f x = false := by revert hxf; cases f x <;> simp
        rw [List.filter_cons_of_neg (by simp [hxc, hxf2]),
          List.filter_cons_of_neg hxf]
        exact ih hnd.2 hxs hf

theorem insertO_same {K V : Type} [DecidableEq K] (m : K → Option V) (k : K)
    (v : V) : insertO m k v k = some v := by
  simp [insertO]

theorem insertO_other {K V : Type} [DecidableEq K] (m : K → Option V) {k q : K}
    (v : V) (h : q ≠ k) : insertO m k v q = m q := by
  simp [insertO, h]

/-- Keys that differ in escrow id or approval type are distinct. -/
theorem filter_insertD_other (s : State) (i : Nat) (t : ApprovalType)
    (c : AccountId) (j : Nat) (u : ApprovalType) (l : List AccountId)
    (h : (j, u) ≠ (i, t)) :
    l.filter (fun a => insertD s.signatures (i, t, c) true (j, u, a))
      = l.filter (fun a => s.signatures (j, u, a)) := by
  apply List.filter_congr
  intro a _
  apply insertD_other
  intro hk
  apply h
  have h1 : j = i := congrArg Prod.fst hk
  have h2 : u = t := congrArg (fun p => p.2.1) hk
  rw [h1, h2]

/-- Inserting a fresh `true` signature entry for signer `c` grows the
filtered signer count by exactly one. -/
theorem length_filter_insertD (s : State) (i : Nat) (t : ApprovalType)
    (c : AccountId) (l : List AccountId) (hnd : l.Nodup) (hc : c ∈ l)
    (hf : s.signatures (i, t, c) = false) :
    (l.filter (fun a => insertD s.signatures (i, t, c) true (i, t, a))).length
      = (l.filter (fun a => s.signatures (i, t, a))).length + 1 := by
  have hcong : l.filter (fun a => insertD s.signatures (i, t, c) true (i, t, a))
      = l.filter (fun a => if a = c then true else s.signatures (i, t, a)) := by
    apply List.filter_congr
    intro a _
    by_cases hac : a = c
    · subst hac; rw [insertD_same]; simp
    · rw [insertD_other _ _ (by simp [hac]), if_neg hac]
  rw [hcong]
  exact length_filter_set_true hnd hc hf

/-- Recording a fresh signature by a configured signer preserves the
signature-accounting invariant. -/
theorem sigInvariant_insert_sig (s : State) (i : Nat) (t : ApprovalType)
    (c : AccountId) (config : MultiSigConfig)
    (hcfg : s.multi_sig_configs i = some config)
    (hmem : c ∈ config.signers)
    (hfalse : s.signatures (i, t, c) = false)
    (h : SigInvariant s) :
    SigInvariant
      { s with
        signatures := insertD s.signatures (i, t, c) true,
        signature_counts :=
          insertD s.signature_counts (i, t) (s.signature_counts (i, t) + 1) } := by
  intro id2 t2
  obtain ⟨hsome, hnone, hfresh⟩ := h id2 t2
  refine ⟨?_, ?_, hfresh⟩
  · intro config2 hcfg2
    obtain ⟨hcount, hsub⟩ := hsome config2 hcfg2
    dsimp only
    rcases eq_or_ne id2 i with rfl | hid
    · have hcc : config2 = config := Option.some.inj (hcfg2.symm.trans hcfg)
      subst hcc
      rcases eq_or_ne t2 t with rfl | ht
      · constructor
        · rw [insertD_same, hcount]
          unfold trueSigners
          dsimp only
          rw [length_filter_insertD s _ _ c _ (List.nodup_dedup _)
            (List.mem_dedup.mpr hmem) hfalse]
        · intro a ha
          by_cases hac : a = c
          · subst hac; exact hmem
          · rw [insertD_other _ _ (by simp [hac])] at ha
            exact hsub a ha
      · have hkey : ((id2, t2) : Nat × ApprovalType) ≠ (id2, t) := by simp [ht]
        constructor
        · rw [insertD_other _ _ hkey]
          unfold trueSigners
          dsimp only
          rw [filter_insertD_other s _ _ c _ _ _ hkey]
          exact hcount
        · intro a ha
          rw [insertD_other _ _ (by simp [ht])] at ha
          exact hsub a ha
    · have hkey : ((id2, t2) : Nat × ApprovalType) ≠ (i, t) := by
        intro hk
        exact hid (congrArg Prod.fst hk)
      constructor
      · rw [insertD_other _ _ hkey]
        unfold trueSigners
        dsimp only
        rw [filter_insertD_other s _ _ c _ _ _ hkey]
        exact hcount
      · intro a ha
        rw [insertD_other _ _ (fun hk => hid (congrArg Prod.fst hk))] at ha
        exact hsub a ha
  · intro hn
    have hn2 : s.multi_sig_configs id2 = none := hn
    have hid : id2 ≠ i := by
      intro hh
      rw [hh, hcfg] at hn2
      cases hn2
    obtain ⟨hc0, hf0⟩ := hnone hn2
    dsimp only
    constructor
    · rw [insertD_other _ _ (fun hk => hid (congrArg Prod.fst hk))]
      exact hc0
    · intro a
      rw [insertD_other _ _ (fun hk => hid (congrArg Prod.fst hk))]
      exact hf0 a

/-- Creating a fresh escrow configuration preserves the signature-accounting
invariant (the new id is above the previous `escrow_count`, hence carries
no signatures yet). -/
theorem sigInvariant_bump_config (s : State) (rs : Nat) (ps : List AccountId)
    (h : SigInvariant s) :
    SigInvariant
      { s with
        escrow_count := s.escrow_count + 1,
        multi_sig_configs := insertO s.multi_sig_configs (s.escrow_count + 1)
          { required_signatures := rs, signers := ps } } := by
  intro id2 t2
  obtain ⟨hsome, hnone, hfresh⟩ := h id2 t2
  dsimp only
  by_cases hid : id2 = s.escrow_count + 1
  · have hn : s.multi_sig_configs id2 = none := hfresh (by omega)
    obtain ⟨hc0, hf0⟩ := hnone hn
    refine ⟨?_, ?_, ?_⟩
    · intro config2 _
      constructor
      · rw [hc0]
        unfold trueSigners
        dsimp only
        rw [List.filter_eq_nil_iff.mpr (fun a _ => by simp [hf0 a])]
        rfl
      · intro a ha
        rw [hf0 a] at ha
        cases ha
    · intro _
      exact ⟨hc0, hf0⟩
    · intro hlt
      rw [hid] at hlt
      exact absurd hlt (by omega)
  · refine ⟨?_, ?_, ?_⟩
    · intro config2 hcfg2
      rw [insertO_other _ _ hid] at hcfg2
      exact hsome config2 hcfg2
    · intro hn2
      rw [insertO_other _ _ hid] at hn2
      exact hnone hn2
    · intro hlt
      rw [insertO_other _ _ hid]
      exact hfresh (by omega)

theorem sigInvariant_new (c : AccountId) (th : Balance) :
    SigInvariant (State.new c th) := by
  intro id2 t2
  refine ⟨?_, ?_, ?_⟩
  · intro config h
    cases h
  · intro _
    exact ⟨rfl, fun a => rfl⟩
  · intro _
    rfl

theorem sigInvariant_sign_approval (s : State) (env : Env) (i : Nat)
    (t : ApprovalType) (h : SigInvariant s) :
    SigInvariant (sign_approval s env i t).2 := by
  unfold sign_approval
  split
  · exact h
  · split
    · exact h
    · split
      · exact h
      · dsimp only
        split
        · exact h
        · rename_i config hcfg hmemn hsig
          have hfalse : s.signatures (i, t, env.caller) = false := by
            cases hx : s.signatures (i, t, env.caller) with
            | false => rfl
            | true => exact absurd hx hsig
          exact sigInvariant_of_sigPart_eq rfl
            (sigInvariant_insert_sig s i t env.caller config hcfg
              (not_not.mp hmemn) hfalse h)

theorem sigInvariant_create (s : State) (env : Env) (p a : Nat)
    (b sl : AccountId) (ps : List AccountId) (rs : Nat) (rtl : Option Timestamp)
    (h : SigInvariant s) :
    SigInvariant (create_escrow_advanced s env p a b sl ps rs rtl).2 := by
  unfold create_escrow_advanced
  split
  · exact h
  · split
    · exact h
    · exact sigInvariant_of_sigPart_eq rfl (sigInvariant_bump_config s rs ps h)

theorem reachable_sigInvariant {s : State} (h : Reachable s) : SigInvariant s := by
  induction h with
  | base c th => exact sigInvariant_new c th
  | step op env _ ih =>
    cases op with
    | createEscrowAdvanced p a b sl ps rs rtl =>
      exact sigInvariant_create _ _ p a b sl ps rs rtl ih
    | depositFunds i =>
      exact sigInvariant_of_sigPart_eq (sigPart_deposit_funds _ _ i) ih
    | releaseFunds i =>
      exact sigInvariant_of_sigPart_eq (sigPart_release_funds _ _ i) ih
    | refundFunds i =>
      exact sigInvariant_of_sigPart_eq (sigPart_refund_funds _ _ i) ih
    | uploadDocument i dh dt =>
      exact sigInvariant_of_sigPart_eq (sigPart_upload_document _ _ i dh dt) ih
    | verifyDocument i dh =>
      exact sigInvariant_of_sigPart_eq (sigPart_verify_document _ _ i dh) ih
    | addCondition i d =>
      exact sigInvariant_of_sigPart_eq (sigPart_add_condition _ _ i d) ih
    | markConditionMet i c =>
      exact sigInvariant_of_sigPart_eq (sigPart_mark_condition_met _ _ i c) ih
    | signApproval i t => exact sigInvariant_sign_approval _ _ i t ih
    | raiseDispute i r =>
      exact sigInvariant_of_sigPart_eq (sigPart_raise_dispute _ _ i r) ih
    | resolveDispute i r =>
      exact sigInvariant_of_sigPart_eq (sigPart_resolve_dispute _ _ i r) ih
    | emergencyOverride i b2 =>
      exact sigInvariant_of_sigPart_eq (sigPart_emergency_override _ _ i b2) ih
    | setAdmin a2 =>
      exact sigInvariant_of_sigPart_eq (sigPart_set_admin _ _ a2) ih

theorem admin_create_escrow_advanced (s : State) (env : Env) (p a : Nat) (b sl : AccountId) (ps : List AccountId) (rs : Nat) (rtl : Option Timestamp) :
    (create_escrow_advanced s env p a b sl ps rs rtl).2.admin = s.admin := by
  unfold create_escrow_advanced
  repeat' (first | rfl | split | dsimp only)

theorem admin_deposit_funds (s : State) (env : Env) (i : Nat) :
    (deposit_funds s env i).2.admin = s.admin := by
  unfold deposit_funds
  repeat' (first | rfl | split | dsimp only)

theorem admin_release_funds (s : State) (env : Env) (i : Nat) :
    (release_funds s env i).2.admin = s.admin := by
  unfold release_funds
  repeat' (first | rfl | split | dsimp only)

theorem admin_refund_funds (s : State) (env : Env) (i : Nat) :
    (refund_funds s env i).2.admin = s.admin := by
  unfold refund_funds
  repeat' (first | rfl | split | dsimp only)

theorem admin_upload_document (s : State) (env : Env) (i : Nat) (dh : EHash) (dt : String) :
    (upload_document s env i dh dt).2.admin = s.admin := by
  unfold upload_document
  repeat' (first | rfl | split | dsimp only)

theorem admin_verify_document (s : State) (env : Env) (i : Nat) (dh : EHash) :
    (verify_document s env i dh).2.admin = s.admin := by
  unfold verify_document
  repeat' (first | rfl | split | dsimp only)

theorem admin_add_condition (s : State) (env : Env) (i : Nat) (d : String) :
    (add_condition s env i d).2.admin = s.admin := by
  unfold add_condition
  repeat' (first | rfl | split | dsimp only)

theorem admin_mark_condition_met (s : State) (env : Env) (i c : Nat) :
    (mark_condition_met s env i c).2.admin = s.admin := by
  unfold mark_condition_met
  repeat' (first | rfl | split | dsimp only)

theorem admin_sign_approval (s : State) (env : Env) (i : Nat) (t : ApprovalType) :
    (sign_approval s env i t).2.admin = s.admin := by
  unfold sign_approval
  repeat' (first | rfl | split | dsimp only)

theorem admin_raise_dispute (s : State) (env : Env) (i : Nat) (r : String) :
    (raise_dispute s env i r).2.admin = s.admin := by
  unfold raise_dispute
  repeat' (first | rfl | split | dsimp only)

theorem admin_resolve_dispute (s : State) (env : Env) (i : Nat) (r : String) :
    (resolve_dispute s env i r).2.admin = s.admin := by
  unfold resolve_dispute
  repeat' (first | rfl | split | dsimp only)

theorem admin_emergency_override (s : State) (env : Env) (i : Nat) (b2 : Bool) :
    (emergency_override s env i b2).2.admin = s.admin := by
  unfold emergency_override
  repeat' (first | rfl | split | dsimp only)

/-- `check_all_conditions_met` never fails: it returns the conjunction of
the `met` flags (an empty condition list is vacuously met). -/
theorem check_all_conditions_met_eq (s : State) (i : Nat) :
    check_all_conditions_met s i
      = .ok (((s.conditions i).getD []).all (fun c => c.met)) := by
  unfold check_all_conditions_met
  dsimp only
  split
  · rename_i hnil
    rw [hnil]
    rfl
  · rfl

/-- Successful `raise_dispute`: result, the overwritten escrow status, the
stored dispute record, and the untouched admin. -/
theorem raise_dispute_success (s : State) (env : Env) (i : Nat) (r : String)
    (escrow : EscrowData) (hesc : s.escrows i = some escrow)
    (hcaller : env.caller = escrow.buyer ∨ env.caller = escrow.seller)
    (hnod : dispute_active s i = false) :
    (raise_dispute s env i r).1 = .ok () ∧
    (raise_dispute s env i r).2.escrows i
      = some { escrow with status := .Disputed } ∧
    (raise_dispute s env i r).2.disputes i = some
      { escrow_id := i, raised_by := env.caller, reason := r,
        raised_at := env.block_timestamp, resolved := false,
        resolution := none } ∧
    (raise_dispute s env i r).2.admin = s.admin := by
  unfold raise_dispute
  rw [hesc]
  dsimp only
  rw [if_neg (by rcases hcaller with h | h <;> simp [h]), if_neg (by simp [hnod])]
  exact ⟨rfl, insertO_same _ _ _, insertO_same _ _ _, rfl⟩

/-- Successful `resolve_dispute`: result, the unconditional `Active` status,
and the resolved dispute record. -/
theorem resolve_dispute_success (s : State) (env : Env) (i : Nat) (r : String)
    (d : DisputeInfo) (escrow : EscrowData)
    (hadmin : env.caller = s.admin)
    (hd : s.disputes i = some d)
    (hesc : s.escrows i = some escrow) :
    (resolve_dispute s env i r).1 = .ok () ∧
    (resolve_dispute s env i r).2.escrows i
      = some { escrow with status := .Active } ∧
    (resolve_dispute s env i r).2.disputes i
      = some { d with resolved := true, resolution := some r } := by
  unfold resolve_dispute
  rw [if_neg (not_not.mpr hadmin), hd]
  dsimp only
  rw [hesc]
  dsimp only
  exact ⟨rfl, insertO_same _ _ _, insertO_same _ _ _⟩

/-- Inversion and state characterization of a successful `sign_approval`. -/
theorem sign_approval_ok_state (s : State) (env : Env) (i : Nat)
    (t : ApprovalType) (hok : (sign_approval s env i t).1 = .ok ()) :
    (sign_approval s env i t).2.escrows = s.escrows ∧
    (sign_approval s env i t).2.multi_sig_configs = s.multi_sig_configs ∧
    (sign_approval s env i t).2.signatures (i, t, env.caller) = true ∧
    ∃ escrow config, s.escrows i = some escrow ∧
      s.multi_sig_configs i = some config ∧ env.caller ∈ config.signers := by
  unfold sign_approval at hok ⊢
  split at hok
  · simp at hok
  · rename_i escrow heq
    split at hok
    · simp at hok
    · rename_i config heq2
      split at hok
      · simp at hok
      · rename_i hmemn
        dsimp only at hok
        split at hok
        · simp at hok
        · rename_i hsig
          rw [heq, heq2]
          dsimp only
          rw [if_neg hmemn, if_neg hsig]
          exact ⟨rfl, rfl, insertD_same _ _ _,
            escrow, config, rfl, rfl, not_not.mp hmemn⟩

/-- The first-match loop of `mark_condition_met` on a list whose prefix does
not contain the id: updates exactly the first matching condition. -/
theorem markFirstCondition_append (caller : AccountId) (now : Timestamp)
    (cid : Nat) (pre : List Condition) (c : Condition) (post : List Condition)
    (hpre : ∀ x ∈ pre, x.id ≠ cid) (hid : c.id = cid) :
    markFirstCondition caller now cid (pre ++ c :: post)
      = (pre ++ markedCondition c caller now :: post, true) := by
  induction pre with
  | nil =>
    simp only [List.nil_append]
    unfold markFirstCondition
    rw [if_pos hid]
    rfl
  | cons x xs ih =>
    have hx : x.id ≠ cid := hpre x (List.mem_cons_self x xs)
    simp only [List.cons_append]
    unfold markFirstCondition
    rw [if_neg hx, ih (fun y hy => hpre y (List.mem_cons_of_mem x hy))]

/-! ### Claim theorems -/

/-- **C10**: `deposit_funds` performs no caller authorization: its returned
result is independent of the caller (given the same transferred value), it
succeeds on every existing escrow in status `Created` or `Funded` for every
caller, and it never fails with `Unauthorized`. -/
theorem C10_deposit_no_caller_auth :
    (∀ s env env2 escrow_id, env.transferred_value = env2.transferred_value →
        (deposit_funds s env escrow_id).1 = (deposit_funds s env2 escrow_id).1) ∧
    (∀ s env escrow_id escrow, s.escrows escrow_id = some escrow →
        (escrow.status = .Created ∨ escrow.status = .Funded) →
        (deposit_funds s env escrow_id).1 = .ok ()) ∧
    (∀ s env escrow_id,
        (deposit_funds s env escrow_id).1 ≠ .error .Unauthorized) := by
  refine ⟨?_, ?_, ?_⟩
  · intro s env env2 i hv
    unfold deposit_funds
    cases hesc : s.escrows i with
    | none => rfl
    | some escrow =>
      dsimp only
      by_cases hc : escrow.status ≠ EscrowStatus.Created ∧
          escrow.status ≠ EscrowStatus.Funded
      · rw [if_pos hc, if_pos hc]
      · rw [if_neg hc, if_neg hc]
  · intro s env i escrow hesc hstat
    unfold deposit_funds
    rw [hesc]
    dsimp only
    rw [if_neg (by rcases hstat with h | h <;> simp [h])]
  · intro s env i
    unfold deposit_funds
    cases hesc : s.escrows i with
    | none => simp
    | some escrow =>
      dsimp only
      by_cases hc : escrow.status ≠ EscrowStatus.Created ∧
          escrow.status ≠ EscrowStatus.Funded
      · rw [if_pos hc]
        simp
      · rw [if_neg hc]
        simp

/-- **C10 witness**: depositing into the created fixture escrow succeeds for
an arbitrary non-participant caller (account 9), with the same result as for
the payer, and is not `Unauthorized`. -/
theorem C10_deposit_no_caller_auth_witness :
    (deposit_funds sCreated (mkEnv 9 40 6) 1).1
        = (deposit_funds sCreated (mkEnv 1 40 6) 1).1 ∧
    (deposit_funds sCreated (mkEnv 9 40 6) 1).1 = .ok () ∧
    (deposit_funds sCreated (mkEnv 9 40 6) 1).1 ≠ .error .Unauthorized :=
  ⟨C10_deposit_no_caller_auth.1 sCreated (mkEnv 9 40 6) (mkEnv 1 40 6) 1 rfl,
   C10_deposit_no_caller_auth.2.1 sCreated (mkEnv 9 40 6) 1 escCreatedData
     (by decide) (Or.inl (by decide)),
   C10_deposit_no_caller_auth.2.2 sCreated (mkEnv 9 40 6) 1⟩

/-- **C8**: if the custody transfer primitive rejects every transfer,
`release_funds`, `refund_funds`, and `emergency_override` each return an
error and leave the entire stored state (including the ghost transfer log)
unchanged: the status update happens only after a successful transfer. -/
theorem C8_failed_transfer_no_mutation (s : State) (env : Env)
    (escrow_id : Nat) (release_to_seller : Bool)
    (hfail : ∀ r a, env.transfer_ok r a = false) :
    ((∃ e, (release_funds s env escrow_id).1 = .error e) ∧
      (release_funds s env escrow_id).2 = s) ∧
    ((∃ e, (refund_funds s env escrow_id).1 = .error e) ∧
      (refund_funds s env escrow_id).2 = s) ∧
    ((∃ e, (emergency_override s env escrow_id release_to_seller).1 = .error e) ∧
      (emergency_override s env escrow_id release_to_seller).2 = s) := by
  refine ⟨?_, ?_, ?_⟩
  · unfold release_funds
    repeat' (first | split | dsimp only)
    all_goals try exact ⟨⟨_, rfl⟩, rfl⟩
    all_goals (rename_i hq; rw [hfail] at hq; simp at hq)
  · unfold refund_funds
    repeat' (first | split | dsimp only)
    all_goals try exact ⟨⟨_, rfl⟩, rfl⟩
    all_goals (rename_i hq; rw [hfail] at hq; simp at hq)
  · unfold emergency_override
    repeat' (first | split | dsimp only)
    all_goals try exact ⟨⟨_, rfl⟩, rfl⟩
    all_goals (rename_i hq; rw [hfail] at hq; simp at hq)

/-- **C8 witness**: with a failing custody primitive, release, refund, and
emergency override on the fully signed active fixture escrow all error and
leave the state unchanged. -/
theorem C8_failed_transfer_no_mutation_witness :
    ((∃ e, (release_funds sReleaseSigned (mkEnvNoTransfer 1 0 20) 1).1
        = .error e) ∧
      (release_funds sReleaseSigned (mkEnvNoTransfer 1 0 20) 1).2
        = sReleaseSigned) ∧
    ((∃ e, (refund_funds sReleaseSigned (mkEnvNoTransfer 1 0 20) 1).1
        = .error e) ∧
      (refund_funds sReleaseSigned (mkEnvNoTransfer 1 0 20) 1).2
        = sReleaseSigned) ∧
    ((∃ e, (emergency_override sReleaseSigned (mkEnvNoTransfer 0 0 20) 1 true).1
        = .error e) ∧
      (emergency_override sReleaseSigned (mkEnvNoTransfer 0 0 20) 1 true).2
        = sReleaseSigned) :=
  ⟨(C8_failed_transfer_no_mutation sReleaseSigned (mkEnvNoTransfer 1 0 20) 1 true
      (fun r a => rfl)).1,
   (C8_failed_transfer_no_mutation sReleaseSigned (mkEnvNoTransfer 1 0 20) 1 true
      (fun r a => rfl)).2.1,
   (C8_failed_transfer_no_mutation sReleaseSigned (mkEnvNoTransfer 0 0 20) 1 true
      (fun r a => rfl)).2.2⟩

/-- **C5**: `emergency_override` on an existing escrow always succeeds for
the administrator — regardless of signatures, conditions, time-lock, or
dispute state, none of which it consults — moving the full custodied amount
to the chosen party and setting the corresponding terminal status; for any
other caller it always fails with `Unauthorized` and changes nothing. -/
theorem C5_emergency_override_admin_total (s : State) (env : Env)
    (escrow_id : Nat) (escrow : EscrowData) (release_to_seller : Bool)
    (hesc : s.escrows escrow_id = some escrow) :
    (env.caller = s.admin →
      env.transfer_ok (if release_to_seller then escrow.seller else escrow.buyer)
          escrow.deposited_amount = true →
      (emergency_override s env escrow_id release_to_seller).1 = .ok () ∧
      (emergency_override s env escrow_id release_to_seller).2.transfers
        = s.transfers ++
            [((if release_to_seller then escrow.seller else escrow.buyer),
              escrow.deposited_amount)] ∧
      get_escrow (emergency_override s env escrow_id release_to_seller).2
          escrow_id
        = some { escrow with
            status := if release_to_seller then .Released else .Refunded }) ∧
    (env.caller ≠ s.admin →
      emergency_override s env escrow_id release_to_seller
        = (.error .Unauthorized, s)) := by
  constructor
  · intro hadmin htr
    unfold emergency_override
    rw [if_neg (not_not.mpr hadmin), hesc]
    dsimp only
    rw [htr]
    rw [if_neg (by decide)]
    refine ⟨rfl, rfl, ?_⟩
    cases release_to_seller with
    | true => exact insertO_same _ _ _
    | false => exact insertO_same _ _ _
  · intro hne
    unfold emergency_override
    rw [if_pos hne]

/-- **C5 witness**: the admin (deployer, account 0) overrides the active
fixture escrow with no signatures at all; account 5 cannot. -/
theorem C5_emergency_override_admin_total_witness :
    ((emergency_override sActive (mkEnv 0 0 10) 1 true).1 = .ok () ∧
      (emergency_override sActive (mkEnv 0 0 10) 1 true).2.transfers
        = sActive.transfers ++ [(2, 100)] ∧
      get_escrow (emergency_override sActive (mkEnv 0 0 10) 1 true).2 1
        = some { escActiveData with status := .Released }) ∧
    emergency_override sActive (mkEnv 5 0 10) 1 true
      = (.error .Unauthorized, sActive) := by
  constructor
  · exact (C5_emergency_override_admin_total sActive (mkEnv 0 0 10) 1
      escActiveData true (by decide)).1 (by decide) (by decide)
  · exact (C5_emergency_override_admin_total sActive (mkEnv 5 0 10) 1
      escActiveData true (by decide)).2 (by decide)

/-- **C3 counterexample**: the claim "every further state-mutating call on a
terminal escrow fails with `InvalidState` and changes nothing" is false:
on the fixture escrow in terminal status `Released`, `sign_approval` (by
participant 3) succeeds, and so does `raise_dispute` (by the buyer). -/
theorem C3_counterexample :
    (get_escrow sReleased 1).map (fun e => e.status) = some .Released ∧
    (sign_approval sReleased (mkEnv 3 0 11) 1 .Release).1 = .ok () ∧
    get_signature_count (sign_approval sReleased (mkEnv 3 0 11) 1 .Release).2
        1 .Release = 1 ∧
    (raise_dispute sReleased (mkEnv 1 0 11) 1 "late").1 = .ok () := by
  decide

/-- **C3 (amended)**: a terminal escrow (`Released` or `Refunded`) rejects
`deposit_funds`, `release_funds`, and `refund_funds` with `InvalidState`
(`InvalidStatus` in the source) and those calls change nothing; the other
mutating operations perform no status check at all and can succeed against
a terminal escrow (witnessed by `sign_approval` on a `Released` escrow). -/
theorem C3_terminal_rejects_funding_ops (s : State) (env : Env)
    (escrow_id : Nat) (escrow : EscrowData)
    (hesc : s.escrows escrow_id = some escrow)
    (hterm : escrow.status = .Released ∨ escrow.status = .Refunded) :
    deposit_funds s env escrow_id = (.error .InvalidStatus, s) ∧
    release_funds s env escrow_id = (.error .InvalidStatus, s) ∧
    refund_funds s env escrow_id = (.error .InvalidStatus, s) ∧
    (∃ s2 env2 i, (get_escrow s2 i).map (fun e => e.status) = some .Released ∧
      (sign_approval s2 env2 i .Release).1 = .ok ()) := by
  refine ⟨?_, ?_, ?_, ⟨sReleased, mkEnv 3 0 11, 1, by decide, by decide⟩⟩
  · unfold deposit_funds
    rw [hesc]
    dsimp only
    rw [if_pos (by rcases hterm with h | h <;> simp [h])]
  · unfold release_funds
    rw [hesc]
    dsimp only
    rw [if_pos (by rcases hterm with h | h <;> simp [h])]
  · unfold refund_funds
    rw [hesc]
    dsimp only
    rw [if_pos (by rcases hterm with h | h <;> simp [h])]

/-- **C3 witness**: the amended theorem applied to the `Released` fixture
escrow. -/
theorem C3_terminal_rejects_funding_ops_witness :
    deposit_funds sReleased (mkEnv 1 10 12) 1
        = (.error .InvalidStatus, sReleased) ∧
    release_funds sReleased (mkEnv 1 0 12) 1
        = (.error .InvalidStatus, sReleased) ∧
    refund_funds sReleased (mkEnv 1 0 12) 1
        = (.error .InvalidStatus, sReleased) :=
  ⟨(C3_terminal_rejects_funding_ops sReleased (mkEnv 1 10 12) 1 escReleasedData
      (by decide) (Or.inl (by decide))).1,
   (C3_terminal_rejects_funding_ops sReleased (mkEnv 1 0 12) 1 escReleasedData
      (by decide) (Or.inl (by decide))).2.1,
   (C3_terminal_rejects_funding_ops sReleased (mkEnv 1 0 12) 1 escReleasedData
      (by decide) (Or.inl (by decide))).2.2.1⟩

/-- **C2 counterexample**: on the fixture escrow with an unresolved dispute
and the `Refund` signature threshold met (count 2 = required 2), `release`
fails with `InvalidStatus` — not `DisputeActive` — and `refund` does not
succeed: it also fails with `InvalidStatus`, because `raise_dispute`
overwrote the stored status with `Disputed`. -/
theorem C2_counterexample :
    (get_dispute sDisputed 1).map (fun d => d.resolved) = some false ∧
    get_signature_count sDisputed 1 .Refund = 2 ∧
    (get_multi_sig_config sDisputed 1).map (fun c => c.required_signatures)
      = some 2 ∧
    (release_funds sDisputed (mkEnv 1 0 20) 1).1 = .error .InvalidStatus ∧
    (release_funds sDisputed (mkEnv 1 0 20) 1).1 ≠ .error .DisputeActive ∧
    (refund_funds sDisputed (mkEnv 1 0 20) 1).1 = .error .InvalidStatus ∧
    (refund_funds sDisputed (mkEnv 1 0 20) 1).1 ≠ .ok () := by
  decide

/-- **C2 (amended)**: after a successful `raise_dispute` the stored status is
`Disputed`, so `release` fails with `InvalidState` (the status check precedes
the dispute check) and `refund` is equally blocked with `InvalidState`, even
when its signature threshold is met; the `DisputeActive` error is produced by
`release` only from a state whose stored status is `Active` while an
unresolved dispute record exists. -/
theorem C2_dispute_blocks_both (s : State) (env env2 : Env) (escrow_id : Nat)
    (escrow : EscrowData) (reason : String)
    (hesc : s.escrows escrow_id = some escrow)
    (hcaller : env.caller = escrow.buyer ∨ env.caller = escrow.seller)
    (hnod : dispute_active s escrow_id = false) :
    (release_funds (raise_dispute s env escrow_id reason).2 env2 escrow_id).1
        = .error .InvalidStatus ∧
    (refund_funds (raise_dispute s env escrow_id reason).2 env2 escrow_id).1
        = .error .InvalidStatus ∧
    (∀ s3 e3, s3.escrows escrow_id = some e3 → e3.status = .Active →
      dispute_active s3 escrow_id = true →
      (release_funds s3 env2 escrow_id).1 = .error .DisputeActive) := by
  obtain ⟨hok, hesc2, hdisp2, hadmin2⟩ :=
    raise_dispute_success s env escrow_id reason escrow hesc hcaller hnod
  refine ⟨?_, ?_, ?_⟩
  · unfold release_funds
    rw [hesc2]
    dsimp only
    rw [if_pos (by simp)]
  · unfold refund_funds
    rw [hesc2]
    dsimp only
    rw [if_pos (by simp)]
  · intro s3 e3 hesc3 hact hdisp3
    unfold release_funds
    rw [hesc3]
    dsimp only
    rw [if_neg (not_not.mpr hact), if_pos hdisp3]

/-- **C2 witness**: the amended theorem applied to the refund-signed active
fixture escrow. -/
theorem C2_dispute_blocks_both_witness :
    (release_funds sDisputed (mkEnv 1 0 20) 1).1 = .error .InvalidStatus ∧
    (refund_funds sDisputed (mkEnv 1 0 20) 1).1 = .error .InvalidStatus :=
  ⟨(C2_dispute_blocks_both sRefundSigned (mkEnv 1 0 9) (mkEnv 1 0 20) 1
      escActiveData "issue" (by decide) (Or.inl (by decide)) (by decide)).1,
   (C2_dispute_blocks_both sRefundSigned (mkEnv 1 0 9) (mkEnv 1 0 20) 1
      escActiveData "issue" (by decide) (Or.inl (by decide)) (by decide)).2.1⟩

/-- **C4 counterexample**: `raise_dispute` does overwrite the stored funding
status (it becomes `Disputed`), and `resolve_dispute` restores `Active`
unconditionally: starting from pre-dispute status `Funded`, the
post-resolution status is `Active`, not the pre-dispute status. -/
theorem C4_counterexample :
    (get_escrow sFunded 1).map (fun e => e.status) = some .Funded ∧
    (get_escrow sFundedDisputed 1).map (fun e => e.status) = some .Disputed ∧
    (resolve_dispute sFundedDisputed (mkEnv 0 0 10) 1 "fixed").1 = .ok () ∧
    (get_escrow sFundedResolved 1).map (fun e => e.status) = some .Active ∧
    EscrowStatus.Active ≠ EscrowStatus.Funded := by
  decide

/-- **C4 (amended)**: `raise_dispute` overwrites the stored status with
`Disputed` (it is not kept as an auxiliary flag), and `resolve_dispute` sets
the status to `Active` unconditionally; consequently the
`Active → Disputed → Active` detour does restore the pre-dispute status, but
only because that status was `Active`. -/
theorem C4_dispute_detour (s : State) (env env2 : Env) (escrow_id : Nat)
    (escrow : EscrowData) (reason resolution : String)
    (hesc : s.escrows escrow_id = some escrow)
    (hstatus : escrow.status = .Active)
    (hcaller : env.caller = escrow.buyer ∨ env.caller = escrow.seller)
    (hnod : dispute_active s escrow_id = false)
    (hadmin : env2.caller = s.admin) :
    (raise_dispute s env escrow_id reason).1 = .ok () ∧
    ((raise_dispute s env escrow_id reason).2.escrows escrow_id).map
        (fun e => e.status) = some .Disputed ∧
    (resolve_dispute (raise_dispute s env escrow_id reason).2 env2 escrow_id
        resolution).1 = .ok () ∧
    ((resolve_dispute (raise_dispute s env escrow_id reason).2 env2 escrow_id
        resolution).2.escrows escrow_id).map (fun e => e.status)
      = some escrow.status := by
  obtain ⟨hok, hesc2, hdisp2, hadmin2⟩ :=
    raise_dispute_success s env escrow_id reason escrow hesc hcaller hnod
  obtain ⟨hok2, hesc3, _⟩ :=
    resolve_dispute_success (raise_dispute s env escrow_id reason).2 env2
      escrow_id resolution _ _ (by rw [hadmin2]; exact hadmin) hdisp2 hesc2
  refine ⟨hok, by rw [hesc2]; rfl, hok2, ?_⟩
  rw [hesc3, hstatus]
  rfl

/-- **C4 witness**: the amended theorem applied to the active fixture
escrow: `Active → Disputed → Active` does restore the original status. -/
theorem C4_dispute_detour_witness :
    (raise_dispute sActive (mkEnv 1 0 9) 1 "issue").1 = .ok () ∧
    ((raise_dispute sActive (mkEnv 1 0 9) 1 "issue").2.escrows 1).map
        (fun e => e.status) = some .Disputed ∧
    (resolve_dispute (raise_dispute sActive (mkEnv 1 0 9) 1 "issue").2
        (mkEnv 0 0 10) 1 "ok").1 = .ok () ∧
    ((resolve_dispute (raise_dispute sActive (mkEnv 1 0 9) 1 "issue").2
        (mkEnv 0 0 10) 1 "ok").2.escrows 1).map (fun e => e.status)
      = some escActiveData.status :=
  C4_dispute_detour sActive (mkEnv 1 0 9) (mkEnv 0 0 10) 1 escActiveData
    "issue" "ok" (by decide) (by decide) (Or.inl (by decide)) (by decide)
    (by decide)

/-- **C7 counterexample**: the admin account is not immutable after
deployment: the public message `set_admin`, called by the current admin,
replaces it. -/
theorem C7_counterexample :
    s0.admin = 0 ∧
    (set_admin s0 (mkEnv 0 0 1) 9).1 = .ok () ∧
    (set_admin s0 (mkEnv 0 0 1) 9).2.admin = 9 ∧
    (9 : AccountId) ≠ 0 := by
  decide

/-- **C7 (amended)**: the admin is initialized to the deployer at
construction; it is not immutable — `set_admin` lets the current admin
replace it (any other caller gets `Unauthorized`), and no other public
operation modifies the admin.  The admin capability gates `resolve_dispute`,
`emergency_override`, and `set_admin`: each fails with `Unauthorized` for
every non-admin caller. -/
theorem C7_admin_lifecycle :
    (∀ caller threshold, (State.new caller threshold).admin = caller) ∧
    (∀ op env s, (∀ a, op ≠ Op.setAdmin a) → (op.apply env s).admin = s.admin) ∧
    (∀ s env a, env.caller = s.admin →
        set_admin s env a = (.ok (), { s with admin := a })) ∧
    (∀ s env a, env.caller ≠ s.admin →
        set_admin s env a = (.error .Unauthorized, s)) ∧
    (∀ s env i r, env.caller ≠ s.admin →
        resolve_dispute s env i r = (.error .Unauthorized, s)) ∧
    (∀ s env i b, env.caller ≠ s.admin →
        emergency_override s env i b = (.error .Unauthorized, s)) := by
  refine ⟨fun _ _ => rfl, ?_, ?_, ?_, ?_, ?_⟩
  · intro op env s hno
    cases op with
    | setAdmin a => exact absurd rfl (hno a)
    | createEscrowAdvanced p a b sl ps rs rtl =>
      exact admin_create_escrow_advanced s env p a b sl ps rs rtl
    | depositFunds i => exact admin_deposit_funds s env i
    | releaseFunds i => exact admin_release_funds s env i
    | refundFunds i => exact admin_refund_funds s env i
    | uploadDocument i dh dt => exact admin_upload_document s env i dh dt
    | verifyDocument i dh => exact admin_verify_document s env i dh
    | addCondition i d => exact admin_add_condition s env i d
    | markConditionMet i c => exact admin_mark_condition_met s env i c
    | signApproval i t => exact admin_sign_approval s env i t
    | raiseDispute i r => exact admin_raise_dispute s env i r
    | resolveDispute i r => exact admin_resolve_dispute s env i r
    | emergencyOverride i b2 => exact admin_emergency_override s env i b2
  · intro s env a hadmin
    unfold set_admin
    rw [if_neg (not_not.mpr hadmin)]
  · intro s env a hne
    unfold set_admin
    rw [if_pos hne]
  · intro s env i r hne
    unfold resolve_dispute
    rw [if_pos hne]
  · intro s env i b hne
    unfold emergency_override
    rw [if_pos hne]

/-- **C7 witness**: the amended theorem instantiated on the fixtures: the
deployer is the admin, a deposit does not change the admin, the admin can
hand over the admin role, and a non-admin caller is rejected from
`set_admin`, `resolve_dispute`, and `emergency_override`. -/
theorem C7_admin_lifecycle_witness :
    (State.new 4 77).admin = 4 ∧
    ((Op.depositFunds 1).apply (mkEnv 1 100 6) sCreated).admin
        = sCreated.admin ∧
    set_admin s0 (mkEnv 0 0 1) 9 = (.ok (), { s0 with admin := 9 }) ∧
    set_admin s0 (mkEnv 5 0 1) 9 = (.error .Unauthorized, s0) ∧
    resolve_dispute s0 (mkEnv 5 0 1) 1 "r" = (.error .Unauthorized, s0) ∧
    emergency_override s0 (mkEnv 5 0 1) 1 true = (.error .Unauthorized, s0) :=
  ⟨C7_admin_lifecycle.1 4 77,
   C7_admin_lifecycle.2.1 (Op.depositFunds 1) (mkEnv 1 100 6) sCreated
     (fun a => by simp),
   C7_admin_lifecycle.2.2.1 s0 (mkEnv 0 0 1) 9 (by decide),
   C7_admin_lifecycle.2.2.2.1 s0 (mkEnv 5 0 1) 9 (by decide),
   C7_admin_lifecycle.2.2.2.2.1 s0 (mkEnv 5 0 1) 1 "r" (by decide),
   C7_admin_lifecycle.2.2.2.2.2 s0 (mkEnv 5 0 1) 1 true (by decide)⟩

/-- **C9 counterexample**: re-marking an already-met condition returns
success but is *not* a no-op on the stored state: participant 3 re-marks
condition 1 (met, verified by 1 at time 10) and the stored `verified_by` /
`verified_at` are overwritten to 3 / 20. -/
theorem C9_counterexample :
    (get_conditions sMarked 1).map
        (fun c => (c.met, c.verified_by, c.verified_at))
      = [(true, some 1, some 10)] ∧
    (mark_condition_met sMarked (mkEnv 3 0 20) 1 1).1 = .ok () ∧
    (get_conditions (mark_condition_met sMarked (mkEnv 3 0 20) 1 1).2 1).map
        (fun c => (c.met, c.verified_by, c.verified_at))
      = [(true, some 3, some 20)] ∧
    (some 3 : Option AccountId) ≠ some 1 := by
  decide

/-- **C9 (amended)**: calling `mark_condition_met` on an already-met
condition returns success (not an error) and leaves the `met` flag `true`,
but it is not idempotent on the stored record: `verified_by` and
`verified_at` are overwritten with the latest caller and timestamp. -/
theorem C9_remark_met_condition (s : State) (env : Env)
    (escrow_id condition_id : Nat) (escrow : EscrowData)
    (pre post : List Condition) (c : Condition)
    (hesc : s.escrows escrow_id = some escrow)
    (hpart : env.caller ∈ escrow.participants)
    (hconds : (s.conditions escrow_id).getD [] = pre ++ c :: post)
    (hpre : ∀ x ∈ pre, x.id ≠ condition_id)
    (hid : c.id = condition_id) (hmet : c.met = true) :
    (mark_condition_met s env escrow_id condition_id).1 = .ok () ∧
    (mark_condition_met s env escrow_id condition_id).2.conditions escrow_id
      = some (pre ++ markedCondition c env.caller env.block_timestamp :: post) ∧
    (markedCondition c env.caller env.block_timestamp).met = c.met ∧
    (markedCondition c env.caller env.block_timestamp).verified_by
      = some env.caller ∧
    (markedCondition c env.caller env.block_timestamp).verified_at
      = some env.block_timestamp := by
  unfold mark_condition_met
  rw [hesc]
  dsimp only
  rw [if_neg (not_not.mpr hpart)]
  rw [hconds, markFirstCondition_append env.caller env.block_timestamp
    condition_id pre c post hpre hid]
  dsimp only
  refine ⟨rfl, ?_, by rw [hmet]; rfl, rfl, rfl⟩
  exact insertO_same _ _ _

/-- **C9 witness**: the amended theorem applied to the re-mark of the
fixture condition by participant 3 at time 20. -/
theorem C9_remark_met_condition_witness :
    (mark_condition_met sMarked (mkEnv 3 0 20) 1 1).1 = .ok () ∧
    (mark_condition_met sMarked (mkEnv 3 0 20) 1 1).2.conditions 1
      = some ([] ++ markedCondition
          { id := 1, description := "inspection", met := true,
            verified_by := some 1, verified_at := some 10 } 3 20 :: []) :=
  ⟨(C9_remark_met_condition sMarked (mkEnv 3 0 20) 1 1 escActiveData []
      [] { id := 1, description := "inspection", met := true,
           verified_by := some 1, verified_at := some 10 }
      (by decide) (by decide) (by decide) (fun x hx => absurd hx (by simp))
      (by decide) (by decide)).1,
   (C9_remark_met_condition sMarked (mkEnv 3 0 20) 1 1 escActiveData []
      [] { id := 1, description := "inspection", met := true,
           verified_by := some 1, verified_at := some 10 }
      (by decide) (by decide) (by decide) (fun x hx => absurd hx (by simp))
      (by decide) (by decide)).2.1⟩

/-- **C1**: for an existing, configured escrow, when the custody transfer
primitive accepts the payout, `release_funds` succeeds iff the status is
`Active`, no unresolved dispute exists, any configured time-lock has
expired, every condition is met, and the `Release` signature count reaches
`required_signatures`; each violated clause yields its own error, checked
in the order status (`InvalidState`/`InvalidStatus`), dispute
(`DisputeActive`), time-lock (`TimeLockActive`), conditions
(`ConditionsNotMet`), threshold
(`ThresholdNotMet`/`SignatureThresholdNotMet`). -/
theorem C1_release_iff (s : State) (env : Env) (escrow_id : Nat)
    (escrow : EscrowData) (config : MultiSigConfig)
    (hesc : s.escrows escrow_id = some escrow)
    (hcfg : s.multi_sig_configs escrow_id = some config)
    (htr : env.transfer_ok escrow.seller escrow.deposited_amount = true) :
    ((release_funds s env escrow_id).1 = .ok () ↔
      (escrow.status = .Active ∧ dispute_active s escrow_id = false ∧
       time_lock_active env escrow = false ∧
       (get_conditions s escrow_id).all (fun c => c.met) = true ∧
       config.required_signatures ≤ get_signature_count s escrow_id .Release)) ∧
    (escrow.status ≠ .Active →
      (release_funds s env escrow_id).1 = .error .InvalidStatus) ∧
    (escrow.status = .Active → dispute_active s escrow_id = true →
      (release_funds s env escrow_id).1 = .error .DisputeActive) ∧
    (escrow.status = .Active → dispute_active s escrow_id = false →
      time_lock_active env escrow = true →
      (release_funds s env escrow_id).1 = .error .TimeLockActive) ∧
    (escrow.status = .Active → dispute_active s escrow_id = false →
      time_lock_active env escrow = false →
      (get_conditions s escrow_id).all (fun c => c.met) = false →
      (release_funds s env escrow_id).1 = .error .ConditionsNotMet) ∧
    (escrow.status = .Active → dispute_active s escrow_id = false →
      time_lock_active env escrow = false →
      (get_conditions s escrow_id).all (fun c => c.met) = true →
      get_signature_count s escrow_id .Release < config.required_signatures →
      (release_funds s env escrow_id).1 = .error .SignatureThresholdNotMet) := by
  unfold release_funds
  rw [hesc]
  dsimp only
  rw [check_all_conditions_met_eq]
  unfold check_signature_threshold
  rw [hcfg]
  dsimp only
  unfold get_conditions get_signature_count
  by_cases hst : escrow.status = EscrowStatus.Active
  · rw [if_neg (not_not.mpr hst)]
    cases hdisp : dispute_active s escrow_id with
    | true => simp [hst]
    | false =>
      cases htl : time_lock_active env escrow with
      | true => simp [hst]
      | false =>
        cases hcond : ((s.conditions escrow_id).getD []).all (fun c => c.met) with
        | false => simp [hst]
        | true =>
          cases hth : decide (config.required_signatures
              ≤ s.signature_counts (escrow_id, ApprovalType.Release)) with
          | true =>
            have hx := of_decide_eq_true hth
            have hx2 := Nat.not_lt.mpr hx
            simp [hst, hx, hx2, htr]
          | false =>
            have hx := of_decide_eq_false hth
            simp [hst, hx]
  · rw [if_pos hst]
    simp [hst]

/-- **C1 witness**: the fully signed active fixture escrow (two `Release`
signatures, threshold 2, no conditions, no time-lock, no dispute) releases
successfully; removing one signature (only the first signer signed) makes
it fail with `SignatureThresholdNotMet`. -/
theorem C1_release_iff_witness :
    (release_funds sReleaseSigned (mkEnv 1 0 20) 1).1 = .ok () ∧
    (release_funds (sign_approval sActive (mkEnv 1 0 7) 1 .Release).2
        (mkEnv 1 0 20) 1).1 = .error .SignatureThresholdNotMet :=
  ⟨(C1_release_iff sReleaseSigned (mkEnv 1 0 20) 1 escActiveData
      { required_signatures := 2, signers := [1, 2, 3] }
      (by decide) (by decide) (by decide)).1.mpr (by decide),
   (C1_release_iff (sign_approval sActive (mkEnv 1 0 7) 1 .Release).2
      (mkEnv 1 0 20) 1 escActiveData
      { required_signatures := 2, signers := [1, 2, 3] }
      (by decide) (by decide) (by decide)).2.2.2.2.2 (by decide) (by decide)
      (by decide) (by decide) (by decide)⟩

/-- The refund-signed fixture state is reachable from a fresh deployment. -/
theorem reachable_sRefundSigned : Reachable sRefundSigned :=
  Reachable.step (Op.signApproval 1 .Refund) (mkEnv 2 0 8)
    (Reachable.step (Op.signApproval 1 .Refund) (mkEnv 1 0 7)
      (Reachable.step (Op.depositFunds 1) (mkEnv 1 100 6)
        (Reachable.step (Op.createEscrowAdvanced 7 100 1 2 [1, 2, 3] 2 none)
          (mkEnv 1 0 5)
          (Reachable.base 0 1000))))

/-- **C6**: a signer contributes at most one signature per
`(escrow, approval_type)`: after a successful `sign_approval`, the same call
again returns `AlreadySigned` and leaves the state (hence the count)
unchanged; and in every reachable state, for every configured escrow the
stored count equals the number of distinct signers holding a recorded `true`
signature entry for that key, every `true` entry belongs to a configured
signer, and the count never exceeds `signers.length`. -/
theorem C6_signature_accounting :
    (∀ s env escrow_id approval_type,
        (sign_approval s env escrow_id approval_type).1 = .ok () →
        sign_approval (sign_approval s env escrow_id approval_type).2 env
            escrow_id approval_type
          = (.error .AlreadySigned,
             (sign_approval s env escrow_id approval_type).2)) ∧
    (∀ s, Reachable s → ∀ escrow_id approval_type config,
        s.multi_sig_configs escrow_id = some config →
        get_signature_count s escrow_id approval_type
            = (trueSigners s escrow_id approval_type config.signers).length ∧
        (∀ a, s.signatures (escrow_id, approval_type, a) = true →
            a ∈ config.signers) ∧
        get_signature_count s escrow_id approval_type
          ≤ config.signers.length) := by
  constructor
  · intro s env i t hok
    obtain ⟨he, hcfgs, hsig, escrow, config, hescval, hcfgval, hmem⟩ :=
      sign_approval_ok_state s env i t hok
    generalize hgen : (sign_approval s env i t).2 = s2 at he hcfgs hsig ⊢
    unfold sign_approval
    rw [he, hcfgs, hescval, hcfgval]
    dsimp only
    rw [if_neg (not_not.mpr hmem), if_pos hsig]
  · intro s hreach i t config hcfg
    obtain ⟨hsome, _, _⟩ := reachable_sigInvariant hreach i t
    obtain ⟨hcount, hsub⟩ := hsome config hcfg
    refine ⟨hcount, hsub, ?_⟩
    unfold get_signature_count
    rw [hcount]
    calc (trueSigners s i t config.signers).length
        ≤ config.signers.dedup.length := List.length_filter_le _ _
      _ ≤ config.signers.length := (List.dedup_sublist _).length_le

/-- **C6 witness**: participant 1 signs `Refund` on the active fixture
escrow; signing again returns `AlreadySigned` with the state unchanged.  In
the reachable two-signature state the count is bounded by the three
signers. -/
theorem C6_signature_accounting_witness :
    sign_approval (sign_approval sActive (mkEnv 1 0 7) 1 .Refund).2
        (mkEnv 1 0 7) 1 .Refund
      = (.error .AlreadySigned,
         (sign_approval sActive (mkEnv 1 0 7) 1 .Refund).2) ∧
    get_signature_count sRefundSigned 1 .Refund ≤ 3 :=
  ⟨C6_signature_accounting.1 sActive (mkEnv 1 0 7) 1 .Refund (by decide),
   (C6_signature_accounting.2 sRefundSigned reachable_sRefundSigned 1 .Refund
      { required_signatures := 2, signers := [1, 2, 3] } (by decide)).2.2⟩

end PropchainEscrow
